import Mathlib

/-!
Verification of the aries-cloudagent present-proof v3.0 subsystem:
a shallow embedding of the restriction-matching verifier
(`protocols/present_proof/v3_0/formats/indy/handler.py`), the exchange
manager (`protocols/present_proof/v3_0/manager.py`) and the exchange
record (`protocols/present_proof/v3_0/models/pres_exchange.py`),
with theorems settling the specification's claims about them.

Dictionaries are modelled as association lists with unique keys
(Python `dict` semantics for the maps these functions build and read);
fallible Python code (exceptions) is modelled with `Except`.
-/

namespace AriesPresentProof

/-- A Python `dict` of string keys and string values, as an association list
in insertion order. -/
abbrev Dict := List (String × String)

/-- `pySplitColonAux cs acc` accumulates the current segment (reversed) while
scanning the remaining characters. -/
def pySplitColonAux : List Char → List Char → List String
  | [], acc => [String.mk acc.reverse]
  | c :: rest, acc =>
      if c = ':' then String.mk acc.reverse :: pySplitColonAux rest []
      else pySplitColonAux rest (c :: acc)

/-- Python `s.split(":")`: split on every colon, keeping empty segments. -/
def pySplitColon (s : String) : List String :=
  pySplitColonAux s.data []

/-- Python negative indexing `xs[-k]` on a list: the element at position
`len - k`, an `IndexError` (here `none`) when `k` is zero or exceeds the
length. -/
def negGet (xs : List String) (k : Nat) : Option String :=
  if k = 0 ∨ xs.length < k then none else xs.get? (xs.length - k)

/-- Modelled from the spec: the attribute-name canonicalization rule used
throughout ("lowercase, whitespace removed"); the function itself
(`aries_cloudagent.messaging.util.canon`) is outside the provided sources. -/
def canon (s : String) : String :=
  String.mk ((s.data.filter (fun c => ¬ c.isWhitespace)).map Char.toLower)

/-- Python `r.items() <= criteria.items()` for dicts: every key/value pair of
`r` appears identically in `criteria`. -/
def dictSubset (r criteria : Dict) : Bool :=
  r.all (fun kv => criteria.lookup kv.1 == some kv.2)

/-- The restriction gate shared by the three loops of
`_check_proof_vs_proposal`: the Python condition
`not any(r.items() <= criteria.items() for r in req_restrictions)
 and len(req_restrictions) != 0` signals a mismatch. -/
def restrictionMismatchB (req_restrictions : List Dict) (criteria : Dict) : Bool :=
  !(req_restrictions.any (fun r => dictSubset r criteria)) &&
    req_restrictions.length != 0

/-- One entry of `proof["identifiers"]`. -/
structure Identifier where
  schema_id : String
  cred_def_id : String
  deriving DecidableEq

/-- One entry of `proof["requested_proof"]["revealed_attrs"]`. -/
structure RevealedAttr where
  raw : String
  sub_proof_index : Nat
  deriving DecidableEq

/-- One entry of `proof["requested_proof"]["revealed_attr_groups"]`:
`values` maps each attribute name to its disclosed raw value. -/
structure RevealedAttrGroup where
  values : Dict
  sub_proof_index : Nat
  deriving DecidableEq

/-- One entry of `proof["requested_proof"]["predicates"]`. -/
structure PredDisclosure where
  sub_proof_index : Nat
  deriving DecidableEq

/-- The `predicate` part of one entry of
`proof["proof"]["proofs"][i]["primary_proof"]["ge_proofs"]`. -/
structure GeProofPred where
  attr_name : String
  p_type : String
  value : Int
  deriving DecidableEq

/-- One entry of `proof["proof"]["proofs"]`, reduced to the fields the check
reads: the `primary_proof.ge_proofs` predicate assertions. -/
structure SubProof where
  ge_proofs : List GeProofPred
  deriving DecidableEq

/-- The received indy proof, reduced to the fields
`_check_proof_vs_proposal` reads. -/
structure IndyProof where
  revealed_attrs : List (String × RevealedAttr)
  revealed_attr_groups : List (String × RevealedAttrGroup)
  predicates : List (String × PredDisclosure)
  identifiers : List Identifier
  proofs : List SubProof
  deriving DecidableEq

/-- One entry of the stored request's `requested_attributes`: `name` and the
restriction-clause list (`.get("restrictions", {})` defaults to empty). -/
structure ReqAttrSpec where
  name : String
  restrictions : List Dict
  deriving DecidableEq

/-- One entry of the stored request's `requested_predicates`. -/
structure ReqPredSpec where
  name : String
  p_type : String
  p_value : Int
  restrictions : List Dict
  deriving DecidableEq

/-- The stored indy proof request, reduced to the fields the check reads. -/
structure ProofReq where
  requested_attributes : List (String × ReqAttrSpec)
  requested_predicates : List (String × ReqPredSpec)
  deriving DecidableEq

/-- The errors `_check_proof_vs_proposal` can raise
(all `V30PresFormatHandlerError` in Python, distinguished here by their
messages) plus `indexError` for Python `IndexError` on malformed input. -/
inductive CheckError where
  | referentNotFound (reft : String)
  | restrictionMismatch (reft : String)
  | predicateMismatch (name : String)
  | predicateNotPresented (name : String)
  | indexError
  deriving DecidableEq

/-- The six base criteria derived from one `identifiers` entry: `schema_id`,
`schema_issuer_did` / `schema_name` / `schema_version` from splitting the
schema id on `:` (indices `[-4]`, `[-2]`, `[-1]`), `cred_def_id`, and
`issuer_did` = `cred_def_id.split(":")[-5]`; `none` on an `IndexError`. -/
def deriveBaseCriteria (schema_id cred_def_id : String) : Option Dict :=
  let ss := pySplitColon schema_id
  let cs := pySplitColon cred_def_id
  match negGet ss 4, negGet ss 2, negGet ss 1, negGet cs 5 with
  | some sidid, some sname, some sver, some idid =>
      some [("schema_id", schema_id),
            ("schema_issuer_did", sidid),
            ("schema_name", sname),
            ("schema_version", sver),
            ("cred_def_id", cred_def_id),
            ("issuer_did", idid)]
  | _, _, _, _ => none

/-- The body of the `revealed_attrs` loop of `_check_proof_vs_proposal` for
one referent `reft` with disclosure `attrSpec`. -/
def checkRevealedAttr (proof_req : ProofReq) (identifiers : List Identifier)
    (reft : String) (attrSpec : RevealedAttr) : Except CheckError Unit :=
  match proof_req.requested_attributes.lookup reft with
  | none => .error (.referentNotFound reft)
  | some spec =>
    match identifiers.get? attrSpec.sub_proof_index with
    | none => .error .indexError
    | some ident =>
      match deriveBaseCriteria ident.schema_id ident.cred_def_id with
      | none => .error .indexError
      | some base =>
        let criteria := base ++ [("attr::" ++ spec.name ++ "::value", attrSpec.raw)]
        if restrictionMismatchB spec.restrictions criteria then
          .error (.restrictionMismatch reft)
        else .ok ()

/-- The body of the `revealed_attr_groups` loop of
`_check_proof_vs_proposal` for one referent `reft`. -/
def checkRevealedAttrGroup (proof_req : ProofReq) (identifiers : List Identifier)
    (reft : String) (grp : RevealedAttrGroup) : Except CheckError Unit :=
  match proof_req.requested_attributes.lookup reft with
  | none => .error (.referentNotFound reft)
  | some spec =>
    match identifiers.get? grp.sub_proof_index with
    | none => .error .indexError
    | some ident =>
      match deriveBaseCriteria ident.schema_id ident.cred_def_id with
      | none => .error .indexError
      | some base =>
        let criteria := base ++
          grp.values.map (fun nv => ("attr::" ++ nv.1 ++ "::value", nv.2))
        if restrictionMismatchB spec.restrictions criteria then
          .error (.restrictionMismatch reft)
        else .ok ()

/-- Run a loop body over an association list, stopping at the first error
(the Python `for` loop raising out of `_check_proof_vs_proposal`). -/
def runLoop {α : Type} (body : String × α → Except CheckError Unit) :
    List (String × α) → Except CheckError Unit
  | [] => .ok ()
  | item :: rest =>
    match body item with
    | .error e => .error e
    | .ok () => runLoop body rest

/-- `True` for the keys the predicate loop pops from each restriction clause:
Python `k.startswith("attr::")`. -/
def isAttrKey (s : String) : Bool :=
  match s.data with
  | 'a' :: 't' :: 't' :: 'r' :: ':' :: ':' :: _ => true
  | _ => false

/-- Drop every `attr::`-prefixed key from one restriction clause, as the
predicate loop's in-place `req_restriction.pop(k)`. -/
def stripAttrKeys (r : Dict) : Dict :=
  r.filter (fun kv => !isAttrKey kv.1)

/-- Replace the restriction list of the first (and, keys being
`dict` keys, only) requested-predicate entry stored under key `reft`. -/
def setPredRestrictionsAux (reft : String) (restrictions : List Dict) :
    List (String × ReqPredSpec) → List (String × ReqPredSpec)
  | [] => []
  | e :: rest =>
    if reft == e.1 then (e.1, { e.2 with restrictions := restrictions }) :: rest
    else e :: setPredRestrictionsAux reft restrictions rest

/-- Replace the restriction list of the requested predicate stored under key
`reft` — the persistent effect of the loop's in-place `pop`. -/
def setPredRestrictions (proof_req : ProofReq) (reft : String)
    (restrictions : List Dict) : ProofReq :=
  { proof_req with
    requested_predicates :=
      setPredRestrictionsAux reft restrictions proof_req.requested_predicates }

/-- `True` when no restriction clause of any requested predicate contains an
`attr::`-prefixed key. -/
def noAttrPredKeys (proof_req : ProofReq) : Bool :=
  proof_req.requested_predicates.all
    (fun e => e.2.restrictions.all (fun r => r.all (fun kv => !isAttrKey kv.1)))

/-- Modelled from the spec: `Predicate.get` (from `indy/models/predicate.py`,
outside the provided sources) resolves a predicate-type string to the
predicate it denotes ("predicate type ... match exactly"), `none` when the
string denotes none. -/
def predicateGet (p_type : String) : Option String :=
  if p_type = "<" ∨ p_type = "<=" ∨ p_type = ">=" ∨ p_type = ">" then some p_type
  else none

/-- The body of the `predicates` loop of `_check_proof_vs_proposal` for one
referent: it returns the loop body's outcome together with the proof request
as left behind by the in-place stripping of `attr::` keys from the stored
restriction clauses. -/
def checkPredicate (proof_req : ProofReq) (proof : IndyProof)
    (reft : String) (predSpec : PredDisclosure) :
    Except CheckError Unit × ProofReq :=
  match proof_req.requested_predicates.lookup reft with
  | none => (.error (.referentNotFound reft), proof_req)
  | some spec =>
    let req_name := spec.name
    let req_pred := predicateGet spec.p_type
    let req_value := spec.p_value
    let req_restrictions := spec.restrictions.map stripAttrKeys
    let proof_req' := setPredRestrictions proof_req reft req_restrictions
    match proof.proofs.get? predSpec.sub_proof_index with
    | none => (.error .indexError, proof_req')
    | some sub =>
      match sub.ge_proofs.find? (fun g => g.attr_name = canon req_name) with
      | none => (.error (.predicateNotPresented req_name), proof_req')
      | some ge =>
        if ¬ (predicateGet ge.p_type = req_pred ∧ ge.value = req_value) then
          (.error (.predicateMismatch req_name), proof_req')
        else
          match proof.identifiers.get? predSpec.sub_proof_index with
          | none => (.error .indexError, proof_req')
          | some ident =>
            match deriveBaseCriteria ident.schema_id ident.cred_def_id with
            | none => (.error .indexError, proof_req')
            | some criteria =>
              if restrictionMismatchB req_restrictions criteria then
                (.error (.restrictionMismatch reft), proof_req')
              else (.ok (), proof_req')

/-- The `predicates` loop, threading the proof request through each
iteration's in-place mutation and stopping at the first error. -/
def runPredLoop (proof : IndyProof) (proof_req : ProofReq) :
    List (String × PredDisclosure) → Except CheckError Unit × ProofReq
  | [] => (.ok (), proof_req)
  | (reft, predSpec) :: rest =>
    match checkPredicate proof_req proof reft predSpec with
    | (.error e, pr') => (.error e, pr')
    | (.ok (), pr') => runPredLoop proof pr' rest

/-- `_check_proof_vs_proposal` over the extracted indy request and proof:
the three loops in source order, returning the outcome together with the
proof request as left behind by the predicate loop's in-place mutation. -/
def check_proof_vs_proposal (proof_req : ProofReq) (proof : IndyProof) :
    Except CheckError Unit × ProofReq :=
  match runLoop
      (fun item => checkRevealedAttr proof_req proof.identifiers item.1 item.2)
      proof.revealed_attrs with
  | .error e => (.error e, proof_req)
  | .ok () =>
    match runLoop
        (fun item => checkRevealedAttrGroup proof_req proof.identifiers item.1 item.2)
        proof.revealed_attr_groups with
    | .error e => (.error e, proof_req)
    | .ok () => runPredLoop proof proof_req proof.predicates

/-- Python string truthiness of an optional string: `None` and `""` are
falsy. -/
def pyStrTruthy : Option String → Bool
  | none => false
  | some s => !s.isEmpty

/-- Python `x or dflt` on an optional string. -/
def pyOrElse (s : Option String) (dflt : String) : String :=
  match s with
  | some v => if v.isEmpty then dflt else v
  | none => dflt

/-- A format/attachment pair as exchanged between the manager and a format
handler; the payload is opaque at manager level. -/
structure AttachDecorator where
  format : String
  content : String := ""
  deriving DecidableEq

/-- `V30PresProposal`, reduced to the fields the manager reads. -/
structure V30PresProposalMsg where
  attachments : List AttachDecorator := []
  deriving DecidableEq

/-- `V30PresRequest`, reduced to the fields the manager reads
(`body.will_confirm` and the attachments). -/
structure V30PresRequestMsg where
  will_confirm : Bool := false
  attachments : List AttachDecorator := []
  deriving DecidableEq

/-- `V30Pres`, reduced to the fields the manager reads (the thread
correlation id and the attachments). -/
structure V30PresMsg where
  thread_id : String := ""
  attachments : List AttachDecorator := []
  deriving DecidableEq

/-- `V30PresExRecord` (`models/pres_exchange.py`): the persistent state of
one exchange. `last_state` is the base record's `_last_state`, the
last-persisted state maintained by the store's `save`. -/
structure V30PresExRecord where
  pres_ex_id : Option String := none
  connection_id : Option String := none
  thread_id : Option String := none
  initiator : Option String := none
  role : Option String := none
  state : Option String := none
  pres_proposal : Option V30PresProposalMsg := none
  pres_request : Option V30PresRequestMsg := none
  pres : Option V30PresMsg := none
  verified : Option String := none
  error_msg : Option String := none
  last_state : Option String := none
  deriving DecidableEq

def V30PresExRecord.STATE_REQUEST_SENT : String := "request-sent"

def V30PresExRecord.STATE_PRESENTATION_SENT : String := "presentation-sent"

def V30PresExRecord.STATE_PRESENTATION_RECEIVED : String := "presentation-received"

def V30PresExRecord.STATE_DONE : String := "done"

def V30PresExRecord.STATE_ABANDONED : String := "abandoned"

/-- One persisted write: the record state written and the save reason. -/
structure SaveEvent where
  state : Option String
  reason : Option String
  deriving DecidableEq

/-- Modelled from the spec: the store collaborator's `save(record, reason)`
(`BaseRecord.save`, outside the provided sources), which persists the record
and remembers the state it persisted ("checked against the last-persisted
state before writing"); `storageOk = false` is the store raising
`StorageError`, in which case nothing is persisted. -/
def V30PresExRecord.save (rec : V30PresExRecord) (reason : Option String)
    (storageOk : Bool) : V30PresExRecord × List SaveEvent :=
  if storageOk then ({ rec with last_state := rec.state }, [⟨rec.state, reason⟩])
  else (rec, [])

/-- `V30PresExRecord.save_error_state`: return without writing when the
last-persisted state already equals the `state` argument; otherwise enter
`state or STATE_ABANDONED`, record the reason, and save, swallowing a
storage error. -/
def V30PresExRecord.save_error_state (rec : V30PresExRecord)
    (state : Option String) (reason : Option String) (storageOk : Bool) :
    V30PresExRecord × List SaveEvent :=
  if rec.last_state = state then (rec, [])
  else
    let rec1 : V30PresExRecord := { rec with
      state := some (pyOrElse state V30PresExRecord.STATE_ABANDONED),
      error_msg := if pyStrTruthy reason then reason else rec.error_msg }
    rec1.save reason storageOk

/-- The errors the manager operations can raise (`V30PresManagerError` with
its distinct messages, storage errors, and Python `AttributeError` on absent
collaborators); `handlerError` carries an error raised by a format
handler. -/
inductive MgrError where
  | noSupportedRequestFormats
  | noSupportedPresFormats
  | createPresProblemReport
  | verifyPresProblemReport
  | storageNotFound
  | storageDuplicate
  | attributeError
  | handlerError (e : CheckError)
  deriving DecidableEq

/-- A connection record, reduced to its identifier. -/
structure ConnRecord where
  connection_id : String
  deriving DecidableEq

namespace V30PresManager

/-- The format loop of `create_bound_request`: run the handler for every
attachment format with a registered handler, collecting the produced
format/attachment pairs and propagating a handler exception. -/
def collectBoundFormats (supported : String → Bool)
    (run : String → Except MgrError (String × AttachDecorator)) :
    List String → Except MgrError (List (String × AttachDecorator))
  | [] => .ok []
  | f :: rest =>
    if supported f then
      match run f with
      | .error e => .error e
      | .ok fa =>
        match collectBoundFormats supported run rest with
        | .error e => .error e
        | .ok l => .ok (fa :: l)
    else collectBoundFormats supported run rest

/-- `V30PresManager.create_bound_request`: run each supported format handler
over the stored proposal's attachment formats, fail with the
no-supported-formats error when none produced anything, else build the
request message, transition to `request-sent` and save. -/
def create_bound_request (supported : String → Bool)
    (hCreateBound : String → V30PresExRecord → Except MgrError (String × AttachDecorator))
    (rec : V30PresExRecord) :
    Except MgrError (V30PresExRecord × V30PresRequestMsg) × List SaveEvent :=
  match rec.pres_proposal with
  | none => (.error .attributeError, [])
  | some proposal =>
    let input_formats := proposal.attachments.map (·.format)
    match collectBoundFormats supported (fun f => hCreateBound f rec) input_formats with
    | .error e => (.error e, [])
    | .ok request_formats =>
      if request_formats.length = 0 then (.error .noSupportedRequestFormats, [])
      else
        let msg : V30PresRequestMsg :=
          { will_confirm := true, attachments := request_formats.map (·.2) }
        let rec' := { rec with
          state := some V30PresExRecord.STATE_REQUEST_SENT,
          pres_request := some msg }
        (.ok (rec', msg),
         [⟨rec'.state, some "create (bound) v3.0 presentation request"⟩])

/-- The format loop of `create_pres`: a handler returning no pair raises the
problem-report error; a handler exception propagates. -/
def collectPresFormats (supported : String → Bool)
    (run : String → Except MgrError (Option (String × AttachDecorator))) :
    List String → Except MgrError (List (String × AttachDecorator))
  | [] => .ok []
  | f :: rest =>
    if supported f then
      match run f with
      | .error e => .error e
      | .ok none => .error .createPresProblemReport
      | .ok (some fa) =>
        match collectPresFormats supported run rest with
        | .error e => .error e
        | .ok l => .ok (fa :: l)
    else collectPresFormats supported run rest

/-- `V30PresManager.create_pres`: run each supported format handler over the
stored request's attachment formats, fail with the no-supported-formats
error when none produced anything, else build the presentation message,
transition to `presentation-sent`, store the presentation and save. -/
def create_pres (supported : String → Bool)
    (hCreatePres :
      String → V30PresExRecord → Except MgrError (Option (String × AttachDecorator)))
    (rec : V30PresExRecord) :
    Except MgrError (V30PresExRecord × V30PresMsg) × List SaveEvent :=
  match rec.pres_request with
  | none => (.error .attributeError, [])
  | some req =>
    let input_formats := req.attachments.map (·.format)
    match collectPresFormats supported (fun f => hCreatePres f rec) input_formats with
    | .error e => (.error e, [])
    | .ok pres_formats =>
      if pres_formats.length = 0 then (.error .noSupportedPresFormats, [])
      else
        let atts := pres_formats.map (·.2)
        let pres_message : V30PresMsg :=
          { thread_id := rec.thread_id.getD "", attachments := atts }
        let rec' := { rec with
          state := some V30PresExRecord.STATE_PRESENTATION_SENT,
          pres := some { attachments := atts } }
        (.ok (rec', pres_message), [⟨rec'.state, some "create v3.0 presentation"⟩])

/-- True when the record matches the thread-id tag filter and, when present,
the connection-id secondary filter. -/
def tagMatches (thread_id : String) (conn : Option String)
    (r : V30PresExRecord) : Bool :=
  r.thread_id == some thread_id &&
    match conn with
    | none => true
    | some c => r.connection_id == some c

/-- Modelled from the spec: the store collaborator
`retrieveByFilter(primaryFilter, secondaryFilterOrNone) → Record | NotFound`
(`BaseRecord.retrieve_by_tag_filter`, outside the provided sources): per the
spec's connection-less resolution scenario it yields the record when exactly
one matches the filters, raises not-found when none does, and a duplicate
error otherwise. -/
def retrieve_by_tag_filter (store : List V30PresExRecord) (thread_id : String)
    (conn : Option String) : Except MgrError V30PresExRecord :=
  match store.filter (tagMatches thread_id conn) with
  | [r] => .ok r
  | [] => .error .storageNotFound
  | _ => .error .storageDuplicate

/-- The record-resolution step of `receive_pres`: look up by thread id plus
the connection-id filter, and on a not-found error fall back to the
thread-id-only lookup; any other storage error propagates. -/
def receive_pres_lookup (store : List V30PresExRecord) (thread_id : String)
    (conn_filter : Option String) : Except MgrError V30PresExRecord :=
  match retrieve_by_tag_filter store thread_id conn_filter with
  | .error .storageNotFound => retrieve_by_tag_filter store thread_id none
  | r => r

/-- The format loop of `receive_pres`: run the handler for each supported
attachment format; a handler returning `False` raises the problem-report
error, a handler exception propagates, and unsupported formats are
skipped with no requirement that any handler ran. -/
def runReceiveHandlers
    (hReceive : String → V30PresMsg → V30PresExRecord → Except MgrError (Option Bool))
    (supported : String → Bool) (message : V30PresMsg) (rec : V30PresExRecord) :
    List String → Except MgrError Unit
  | [] => .ok ()
  | f :: rest =>
    if supported f then
      match hReceive f message rec with
      | .error e => .error e
      | .ok (some false) => .error .verifyPresProblemReport
      | .ok _ => runReceiveHandlers hReceive supported message rec rest
    else runReceiveHandlers hReceive supported message rec rest

/-- `V30PresManager.receive_pres`: resolve the record (with connection-less
fallback), run the supported format handlers, store the presentation,
transition to `presentation-received`, adopt the connection id when the
record has none, and save. -/
def receive_pres (supported : String → Bool)
    (hReceive : String → V30PresMsg → V30PresExRecord → Except MgrError (Option Bool))
    (store : List V30PresExRecord) (message : V30PresMsg)
    (conn_record : Option ConnRecord) :
    Except MgrError (V30PresExRecord × List SaveEvent) :=
  match receive_pres_lookup store message.thread_id
      (conn_record.map (·.connection_id)) with
  | .error e => .error e
  | .ok rec =>
    match runReceiveHandlers hReceive supported message rec
        (message.attachments.map (·.format)) with
    | .error e => .error e
    | .ok () =>
      let rec1 := { rec with
        pres := some message,
        state := some V30PresExRecord.STATE_PRESENTATION_RECEIVED }
      if pyStrTruthy rec1.connection_id then
        .ok (rec1, [⟨rec1.state, some "receive v3.0 presentation"⟩])
      else
        match conn_record with
        | none => .error .attributeError
        | some c =>
          let rec2 := { rec1 with connection_id := some c.connection_id }
          .ok (rec2, [⟨rec2.state, some "receive v3.0 presentation"⟩])

/-- One sent presentation ack (thread and connection it was addressed to). -/
structure SentAck where
  thread_id : Option String
  connection_id : Option String
  deriving DecidableEq

/-- `V30PresManager.send_pres_ack`: send the ack through the responder when
one is injected; with no responder nothing is sent and nothing fails (the
condition is merely logged). -/
def send_pres_ack (responderPresent : Bool) (rec : V30PresExRecord) :
    List SentAck :=
  if responderPresent then [⟨rec.thread_id, rec.connection_id⟩] else []

/-- The format loop of `verify_pres`, threading the record through each
supported handler's `verify_pres`. -/
def runVerifyHandlers
    (hVerify : String → V30PresExRecord → Except MgrError V30PresExRecord)
    (supported : String → Bool) (rec : V30PresExRecord) :
    List String → Except MgrError V30PresExRecord
  | [] => .ok rec
  | f :: rest =>
    if supported f then
      match hVerify f rec with
      | .error e => .error e
      | .ok rec' => runVerifyHandlers hVerify supported rec' rest
    else runVerifyHandlers hVerify supported rec rest

/-- `V30PresManager.verify_pres`: run the supported format handlers over the
stored request's attachment formats, transition to `done`, save, and send
the ack exactly when the stored request declared `will_confirm`. -/
def verify_pres (supported : String → Bool)
    (hVerify : String → V30PresExRecord → Except MgrError V30PresExRecord)
    (responderPresent : Bool) (rec : V30PresExRecord) :
    Except MgrError (V30PresExRecord × List SaveEvent × List SentAck) :=
  match rec.pres_request with
  | none => .error .attributeError
  | some req =>
    match runVerifyHandlers hVerify supported rec
        (req.attachments.map (·.format)) with
    | .error e => .error e
    | .ok rec1 =>
      let rec2 := { rec1 with state := some V30PresExRecord.STATE_DONE }
      let saves : List SaveEvent := [⟨rec2.state, some "verify v3.0 presentation"⟩]
      let acks := if req.will_confirm then send_pres_ack responderPresent rec2 else []
      .ok (rec2, saves, acks)

end V30PresManager

/-- Whether an `Except` computation completed without raising. -/
def exceptOk {e a : Type} : Except e a → Bool
  | .ok _ => true
  | .error _ => false

/-! ## Derived criteria shapes used by the loop bodies -/

/-- The criteria mapping derived for a single revealed attribute: the base
criteria plus the one `attr::<name>::value` entry. -/
def attrCriteria (base : Dict) (name raw : String) : Dict :=
  base ++ [("attr::" ++ name ++ "::value", raw)]

/-- The criteria mapping derived for a revealed attribute group: the base
criteria plus one `attr::<name>::value` entry per disclosed name. -/
def groupCriteria (base : Dict) (values : Dict) : Dict :=
  base ++ values.map (fun nv => ("attr::" ++ nv.1 ++ "::value", nv.2))

/-! ## Helper lemmas -/

theorem dictSubset_iff (r C : Dict) :
    dictSubset r C = true ↔ ∀ kv ∈ r, C.lookup kv.1 = some kv.2 := by
  simp [dictSubset, List.all_eq_true]

theorem restrictionMismatchB_false_iff (R : List Dict) (C : Dict) :
    restrictionMismatchB R C = false ↔
      R = [] ∨ ∃ r ∈ R, ∀ kv ∈ r, C.lookup kv.1 = some kv.2 := by
  have hany : (R.any (fun r => dictSubset r C) = true) ↔
      ∃ r ∈ R, ∀ kv ∈ r, C.lookup kv.1 = some kv.2 := by
    simp [List.any_eq_true, dictSubset_iff]
  unfold restrictionMismatchB
  rw [Bool.and_eq_false_iff, Bool.not_eq_false', bne_eq_false_iff_eq,
    List.length_eq_zero, hany]
  exact or_comm

theorem restrictionMismatchB_true_iff (R : List Dict) (C : Dict) :
    restrictionMismatchB R C = true ↔
      R ≠ [] ∧ ∀ r ∈ R, ¬ ∀ kv ∈ r, C.lookup kv.1 = some kv.2 := by
  rw [← Bool.not_eq_false (restrictionMismatchB R C), Ne,
    restrictionMismatchB_false_iff]
  push_neg
  tauto

theorem restrictionGate_cases (R : List Dict) (C : Dict) (reft : String) :
    ((if restrictionMismatchB R C then
        (Except.error (CheckError.restrictionMismatch reft) : Except CheckError Unit)
      else .ok ()) = .ok () ↔
      (R = [] ∨ ∃ r ∈ R, ∀ kv ∈ r, C.lookup kv.1 = some kv.2)) ∧
    ((if restrictionMismatchB R C then
        (Except.error (CheckError.restrictionMismatch reft) : Except CheckError Unit)
      else .ok ()) = .error (.restrictionMismatch reft) ↔
      (R ≠ [] ∧ ∀ r ∈ R, ¬ ∀ kv ∈ r, C.lookup kv.1 = some kv.2)) := by
  cases hb : restrictionMismatchB R C
  · have hf := (restrictionMismatchB_false_iff R C).mp hb
    refine ⟨iff_of_true (by simp) hf, iff_of_false (by simp) ?_⟩
    rintro ⟨hne, hall⟩
    rcases hf with rfl | ⟨r, hr, hsub⟩
    · exact hne rfl
    · exact hall r hr hsub
  · have ht := (restrictionMismatchB_true_iff R C).mp hb
    refine ⟨iff_of_false (by simp) ?_, iff_of_true (by simp) ht⟩
    rintro (rfl | ⟨r, hr, hsub⟩)
    · exact ht.1 rfl
    · exact ht.2 r hr hsub

theorem checkRevealedAttr_reduce
    (proof_req : ProofReq) (identifiers : List Identifier) (reft : String)
    (spec : ReqAttrSpec) (attrSpec : RevealedAttr) (ident : Identifier) (base : Dict)
    (h : proof_req.requested_attributes.lookup reft = some spec)
    (hid : identifiers.get? attrSpec.sub_proof_index = some ident)
    (hbase : deriveBaseCriteria ident.schema_id ident.cred_def_id = some base) :
    checkRevealedAttr proof_req identifiers reft attrSpec =
      (if restrictionMismatchB spec.restrictions
          (attrCriteria base spec.name attrSpec.raw) then
        .error (.restrictionMismatch reft) else .ok ()) := by
  unfold checkRevealedAttr attrCriteria
  simp only [h, hid, hbase]

theorem checkRevealedAttrGroup_reduce
    (proof_req : ProofReq) (identifiers : List Identifier) (reft : String)
    (spec : ReqAttrSpec) (grp : RevealedAttrGroup) (ident : Identifier) (base : Dict)
    (h : proof_req.requested_attributes.lookup reft = some spec)
    (hid : identifiers.get? grp.sub_proof_index = some ident)
    (hbase : deriveBaseCriteria ident.schema_id ident.cred_def_id = some base) :
    checkRevealedAttrGroup proof_req identifiers reft grp =
      (if restrictionMismatchB spec.restrictions
          (groupCriteria base grp.values) then
        .error (.restrictionMismatch reft) else .ok ()) := by
  unfold checkRevealedAttrGroup groupCriteria
  simp only [h, hid, hbase]

theorem collectBoundFormats_unsupported (supported : String → Bool)
    (run : String → Except MgrError (String × AttachDecorator)) (fs : List String)
    (h : ∀ f ∈ fs, supported f = false) :
    V30PresManager.collectBoundFormats supported run fs = .ok [] := by
  induction fs with
  | nil => rfl
  | cons f rest ih =>
    unfold V30PresManager.collectBoundFormats
    rw [h f (List.mem_cons_self f rest)]
    simpa using ih (fun g hg => h g (List.mem_cons_of_mem f hg))

theorem collectPresFormats_unsupported (supported : String → Bool)
    (run : String → Except MgrError (Option (String × AttachDecorator)))
    (fs : List String) (h : ∀ f ∈ fs, supported f = false) :
    V30PresManager.collectPresFormats supported run fs = .ok [] := by
  induction fs with
  | nil => rfl
  | cons f rest ih =>
    unfold V30PresManager.collectPresFormats
    rw [h f (List.mem_cons_self f rest)]
    simpa using ih (fun g hg => h g (List.mem_cons_of_mem f hg))

theorem runReceiveHandlers_unsupported
    (hReceive : String → V30PresMsg → V30PresExRecord → Except MgrError (Option Bool))
    (supported : String → Bool) (message : V30PresMsg) (rec : V30PresExRecord)
    (fs : List String) (h : ∀ f ∈ fs, supported f = false) :
    V30PresManager.runReceiveHandlers hReceive supported message rec fs = .ok () := by
  induction fs with
  | nil => rfl
  | cons f rest ih =>
    unfold V30PresManager.runReceiveHandlers
    rw [h f (List.mem_cons_self f rest)]
    simpa using ih (fun g hg => h g (List.mem_cons_of_mem f hg))

theorem stripAttrKeys_eq_self (r : Dict)
    (h : r.all (fun kv => !isAttrKey kv.1) = true) : stripAttrKeys r = r := by
  apply List.filter_eq_self.mpr
  exact List.all_eq_true.mp h

theorem map_stripAttrKeys_eq_self (rs : List Dict)
    (h : rs.all (fun r => r.all (fun kv => !isAttrKey kv.1)) = true) :
    rs.map stripAttrKeys = rs := by
  have hall := List.all_eq_true.mp h
  calc rs.map stripAttrKeys = rs.map id := by
        apply List.map_congr_left
        intro a ha
        simpa using stripAttrKeys_eq_self a (hall a ha)
    _ = rs := List.map_id rs

theorem setPredRestrictionsAux_lookup_self (l : List (String × ReqPredSpec))
    (reft : String) (spec : ReqPredSpec)
    (hl : l.lookup reft = some spec) :
    setPredRestrictionsAux reft spec.restrictions l = l := by
  induction l with
  | nil => cases hl
  | cons e rest ih =>
    obtain ⟨k, v⟩ := e
    rw [List.lookup] at hl
    unfold setPredRestrictionsAux
    cases hk : (reft == k)
    · rw [hk] at hl
      simp only [hk, Bool.false_eq_true, if_false]
      rw [ih hl]
    · rw [hk] at hl
      obtain rfl := Option.some.injEq _ _ ▸ hl
      simp only [hk, if_true]

theorem lookup_pred_mem {l : List (String × ReqPredSpec)} {reft : String}
    {spec : ReqPredSpec} (hl : l.lookup reft = some spec) :
    ∃ k, (k, spec) ∈ l := by
  induction l with
  | nil => cases hl
  | cons e rest ih =>
    obtain ⟨k, v⟩ := e
    rw [List.lookup] at hl
    cases hk : (reft == k)
    · rw [hk] at hl
      obtain ⟨k', hk'⟩ := ih hl
      exact ⟨k', List.mem_cons_of_mem _ hk'⟩
    · rw [hk] at hl
      obtain rfl := Option.some.injEq _ _ ▸ hl
      exact ⟨k, List.mem_cons_self _ _⟩

theorem checkPredicate_snd_unchanged (proof_req : ProofReq) (proof : IndyProof)
    (reft : String) (pd : PredDisclosure)
    (h : noAttrPredKeys proof_req = true) :
    (checkPredicate proof_req proof reft pd).2 = proof_req := by
  unfold checkPredicate
  cases hl : proof_req.requested_predicates.lookup reft with
  | none => rfl
  | some spec =>
    have hset : setPredRestrictions proof_req reft
        (spec.restrictions.map stripAttrKeys) = proof_req := by
      obtain ⟨k, hk⟩ := lookup_pred_mem hl
      have hspec : spec.restrictions.all
          (fun r => r.all (fun kv => !isAttrKey kv.1)) = true :=
        List.all_eq_true.mp h (k, spec) hk
      rw [map_stripAttrKeys_eq_self spec.restrictions hspec]
      unfold setPredRestrictions
      rw [setPredRestrictionsAux_lookup_self proof_req.requested_predicates reft
        spec hl]
    simp only [hl]
    repeat' split
    all_goals exact hset

theorem runPredLoop_snd_unchanged (proof : IndyProof) (proof_req : ProofReq)
    (l : List (String × PredDisclosure))
    (h : noAttrPredKeys proof_req = true) :
    (runPredLoop proof proof_req l).2 = proof_req := by
  induction l generalizing proof_req with
  | nil => rfl
  | cons item rest ih =>
    obtain ⟨reft, pd⟩ := item
    have hstep := checkPredicate_snd_unchanged proof_req proof reft pd h
    unfold runPredLoop
    cases hcp : checkPredicate proof_req proof reft pd with
    | mk outcome pr' =>
      have hpr : pr' = proof_req := by rw [hcp] at hstep; exact hstep
      cases outcome with
      | error e => simpa using hpr
      | ok u =>
        cases u
        simp only []
        rw [hpr]
        exact ih proof_req h

/-! ## Claim theorems -/

/-- C1: for a disclosed revealed attribute or revealed attribute group whose
referent resolves to a request spec with restriction-clause list `R` and
whose derived criteria mapping is `C`, the loop body of `receive_pres`'s
`_check_proof_vs_proposal` accepts the item iff `R` is empty or some clause
`r ∈ R` has all its key/value pairs appearing identically in `C`, and
produces the restriction-mismatch error exactly when `R` is non-empty and no
clause is a subset of `C`. -/
theorem C1_restriction_subset_law
    (proof_req : ProofReq) (identifiers : List Identifier) (reft : String)
    (spec : ReqAttrSpec)
    (h : proof_req.requested_attributes.lookup reft = some spec) :
    (∀ (attrSpec : RevealedAttr) (ident : Identifier) (base : Dict),
      identifiers.get? attrSpec.sub_proof_index = some ident →
      deriveBaseCriteria ident.schema_id ident.cred_def_id = some base →
      ((checkRevealedAttr proof_req identifiers reft attrSpec = .ok () ↔
          (spec.restrictions = [] ∨ ∃ r ∈ spec.restrictions, ∀ kv ∈ r,
            (attrCriteria base spec.name attrSpec.raw).lookup kv.1 = some kv.2)) ∧
        (checkRevealedAttr proof_req identifiers reft attrSpec =
            .error (.restrictionMismatch reft) ↔
          (spec.restrictions ≠ [] ∧ ∀ r ∈ spec.restrictions, ¬ ∀ kv ∈ r,
            (attrCriteria base spec.name attrSpec.raw).lookup kv.1 = some kv.2)))) ∧
    (∀ (grp : RevealedAttrGroup) (ident : Identifier) (base : Dict),
      identifiers.get? grp.sub_proof_index = some ident →
      deriveBaseCriteria ident.schema_id ident.cred_def_id = some base →
      ((checkRevealedAttrGroup proof_req identifiers reft grp = .ok () ↔
          (spec.restrictions = [] ∨ ∃ r ∈ spec.restrictions, ∀ kv ∈ r,
            (groupCriteria base grp.values).lookup kv.1 = some kv.2)) ∧
        (checkRevealedAttrGroup proof_req identifiers reft grp =
            .error (.restrictionMismatch reft) ↔
          (spec.restrictions ≠ [] ∧ ∀ r ∈ spec.restrictions, ¬ ∀ kv ∈ r,
            (groupCriteria base grp.values).lookup kv.1 = some kv.2)))) := by
  constructor
  · intro attrSpec ident base hid hbase
    rw [checkRevealedAttr_reduce proof_req identifiers reft spec attrSpec ident base
      h hid hbase]
    exact restrictionGate_cases spec.restrictions
      (attrCriteria base spec.name attrSpec.raw) reft
  · intro grp ident base hid hbase
    rw [checkRevealedAttrGroup_reduce proof_req identifiers reft spec grp ident base
      h hid hbase]
    exact restrictionGate_cases spec.restrictions (groupCriteria base grp.values) reft

/-- Witness for C1: a concrete revealed attribute whose request carries one
restriction clause that is a subset of the derived criteria is accepted. -/
theorem C1_restriction_subset_law_witness :
    checkRevealedAttr
      ⟨[("attr_ref", ⟨"score", [[("schema_name", "degree")]]⟩)], []⟩
      [⟨"ABC:2:degree:1.0", "XYZ:3:CL:17:tag"⟩]
      "attr_ref" ⟨"780", 0⟩ = .ok () := by
  have h := (C1_restriction_subset_law
      ⟨[("attr_ref", ⟨"score", [[("schema_name", "degree")]]⟩)], []⟩
      [⟨"ABC:2:degree:1.0", "XYZ:3:CL:17:tag"⟩]
      "attr_ref" ⟨"score", [[("schema_name", "degree")]]⟩ (by rfl)).1
      ⟨"780", 0⟩ ⟨"ABC:2:degree:1.0", "XYZ:3:CL:17:tag"⟩
      [("schema_id", "ABC:2:degree:1.0"), ("schema_issuer_did", "ABC"),
       ("schema_name", "degree"), ("schema_version", "1.0"),
       ("cred_def_id", "XYZ:3:CL:17:tag"), ("issuer_did", "XYZ")]
      (by rfl) (by rfl)
  exact h.1.mpr (by decide)

/-- C2 counterexample: the claim predicts `issuer_did = "XYZ"` for
`cred_def_id = "XYZ:3:CL:ABC:2:degree:1.0:tag"`, but that identifier has
eight colon-delimited segments and its fifth-from-last segment — which is
what the code derives — is `"ABC"`, not `"XYZ"`. -/
theorem C2_counterexample :
    ((deriveBaseCriteria "ABC:2:degree:1.0" "XYZ:3:CL:ABC:2:degree:1.0:tag").map
        (fun d => d.lookup "issuer_did")) = some (some "ABC") ∧
      ("ABC" : String) ≠ "XYZ" := by
  constructor
  · rfl
  · decide

/-- C2 (amended): criteria derivation is deterministic colon-splitting; for
`schema_id = "ABC:2:degree:1.0"` the derived fields are
`schema_issuer_did = "ABC"`, `schema_name = "degree"`,
`schema_version = "1.0"`, and for
`cred_def_id = "XYZ:3:CL:ABC:2:degree:1.0:tag"` the derived `issuer_did`
(the fifth-from-last colon-delimited segment) is `"ABC"`. -/
theorem C2_parsing_determinism :
    deriveBaseCriteria "ABC:2:degree:1.0" "XYZ:3:CL:ABC:2:degree:1.0:tag" =
      some [("schema_id", "ABC:2:degree:1.0"),
            ("schema_issuer_did", "ABC"),
            ("schema_name", "degree"),
            ("schema_version", "1.0"),
            ("cred_def_id", "XYZ:3:CL:ABC:2:degree:1.0:tag"),
            ("issuer_did", "ABC")] := by
  rfl

/-- C3 counterexample: `receive_pres` on a message whose only attachment
uses an unregistered format identifier does not fail with the
no-supported-format error — it completes, stores the presentation and
saves the record. -/
theorem C3_counterexample :
    V30PresManager.receive_pres (fun f => f == "hlindy/proof@v2.0")
      (fun _ _ _ => .ok none)
      [{ thread_id := some "t1", connection_id := some "c1" }]
      { thread_id := "t1", attachments := [{ format := "unknown/format" }] }
      (some ⟨"c1"⟩) =
    .ok ({ thread_id := some "t1", connection_id := some "c1",
           state := some "presentation-received",
           pres := some { thread_id := "t1",
                          attachments := [{ format := "unknown/format" }] } },
         [⟨some "presentation-received", some "receive v3.0 presentation"⟩]) := by
  rfl

open V30PresManager in
/-- C3 (amended): `create_bound_request` and `create_pres` fail with their
no-supported-format errors (performing no save) when no attachment format
has a registered handler, but `receive_pres` performs no such check: with no
supported attachment format it completes without error. -/
theorem C3_no_supported_formats
    (supported : String → Bool)
    (hCreateBound : String → V30PresExRecord → Except MgrError (String × AttachDecorator))
    (hCreatePres :
      String → V30PresExRecord → Except MgrError (Option (String × AttachDecorator)))
    (hReceive : String → V30PresMsg → V30PresExRecord → Except MgrError (Option Bool))
    (recB recP : V30PresExRecord) (proposal : V30PresProposalMsg)
    (req : V30PresRequestMsg) (store : List V30PresExRecord)
    (message : V30PresMsg) (c : ConnRecord) (r : V30PresExRecord)
    (hB : recB.pres_proposal = some proposal)
    (hBn : ∀ a ∈ proposal.attachments, supported a.format = false)
    (hP : recP.pres_request = some req)
    (hPn : ∀ a ∈ req.attachments, supported a.format = false)
    (hRn : ∀ a ∈ message.attachments, supported a.format = false)
    (hlook : receive_pres_lookup store message.thread_id (some c.connection_id) = .ok r) :
    create_bound_request supported hCreateBound recB =
        (.error .noSupportedRequestFormats, []) ∧
    create_pres supported hCreatePres recP = (.error .noSupportedPresFormats, []) ∧
    exceptOk (receive_pres supported hReceive store message (some c)) = true := by
  refine ⟨?_, ?_, ?_⟩
  · have hc : collectBoundFormats supported (fun f => hCreateBound f recB)
        (proposal.attachments.map (·.format)) = .ok [] := by
      apply collectBoundFormats_unsupported
      intro f hf
      rcases List.mem_map.mp hf with ⟨a, ha, rfl⟩
      exact hBn a ha
    simp only [create_bound_request, hB, hc]
    rfl
  · have hc : collectPresFormats supported (fun f => hCreatePres f recP)
        (req.attachments.map (·.format)) = .ok [] := by
      apply collectPresFormats_unsupported
      intro f hf
      rcases List.mem_map.mp hf with ⟨a, ha, rfl⟩
      exact hPn a ha
    simp only [create_pres, hP, hc]
    rfl
  · have hr : runReceiveHandlers hReceive supported message r
        (message.attachments.map (·.format)) = .ok () := by
      apply runReceiveHandlers_unsupported
      intro f hf
      rcases List.mem_map.mp hf with ⟨a, ha, rfl⟩
      exact hRn a ha
    cases hct : pyStrTruthy r.connection_id
    · simp only [receive_pres, Option.map_some', hlook, hr, hct,
        Bool.false_eq_true, if_false, exceptOk]
    · simp only [receive_pres, Option.map_some', hlook, hr, hct, if_true, exceptOk]

/-- Witness for C3: concrete records and a concrete one-attachment message
with an unsupported format: the two create operations raise their
no-supported-format errors while `receive_pres` completes. -/
theorem C3_no_supported_formats_witness :
    V30PresManager.create_bound_request (fun f => f == "hlindy/proof@v2.0")
        (fun _ _ => .error .attributeError)
        { pres_proposal := some { attachments := [⟨"other/fmt", ""⟩] } } =
      (.error .noSupportedRequestFormats, []) ∧
    V30PresManager.create_pres (fun f => f == "hlindy/proof@v2.0")
        (fun _ _ => .ok none)
        { pres_request := some { will_confirm := false,
                                 attachments := [⟨"other/fmt", ""⟩] } } =
      (.error .noSupportedPresFormats, []) ∧
    exceptOk (V30PresManager.receive_pres (fun f => f == "hlindy/proof@v2.0")
        (fun _ _ _ => .ok none)
        [{ thread_id := some "t1", connection_id := some "c1" }]
        { thread_id := "t1", attachments := [⟨"other/fmt", ""⟩] }
        (some ⟨"c1"⟩)) = true :=
  C3_no_supported_formats (fun f => f == "hlindy/proof@v2.0")
    (fun _ _ => .error .attributeError)
    (fun _ _ => .ok none)
    (fun _ _ _ => .ok none)
    { pres_proposal := some { attachments := [⟨"other/fmt", ""⟩] } }
    { pres_request := some { will_confirm := false,
                             attachments := [⟨"other/fmt", ""⟩] } }
    { attachments := [⟨"other/fmt", ""⟩] }
    { will_confirm := false, attachments := [⟨"other/fmt", ""⟩] }
    [{ thread_id := some "t1", connection_id := some "c1" }]
    { thread_id := "t1", attachments := [⟨"other/fmt", ""⟩] }
    ⟨"c1"⟩
    { thread_id := some "t1", connection_id := some "c1" }
    rfl (by decide) rfl (by decide) (by decide) rfl

open V30PresManager in
/-- C4: when the stored request's only attachment uses an unregistered
format identifier, `create_pres` fails with the no-supported-formats error,
performing no save and no state transition before raising. -/
theorem C4_unsupported_format_no_save
    (supported : String → Bool)
    (hCreatePres :
      String → V30PresExRecord → Except MgrError (Option (String × AttachDecorator)))
    (rec : V30PresExRecord) (req : V30PresRequestMsg) (a : AttachDecorator)
    (hreq : rec.pres_request = some req)
    (hatt : req.attachments = [a])
    (hunsup : supported a.format = false) :
    create_pres supported hCreatePres rec = (.error .noSupportedPresFormats, []) := by
  have hc : collectPresFormats supported (fun f => hCreatePres f rec)
      (req.attachments.map (·.format)) = .ok [] := by
    apply collectPresFormats_unsupported
    intro f hf
    rcases List.mem_map.mp hf with ⟨b, hb, rfl⟩
    rw [hatt] at hb
    rw [List.mem_singleton.mp hb]
    exact hunsup
  simp only [create_pres, hreq, hc]
  rfl

/-- Witness for C4: a concrete record in `request-received` whose stored
request carries one attachment of an unregistered format. -/
theorem C4_unsupported_format_no_save_witness :
    V30PresManager.create_pres (fun f => f == "hlindy/proof@v2.0")
      (fun _ _ => .ok none)
      { pres_request := some { will_confirm := true,
                               attachments := [⟨"dif/presentation@v1.0", ""⟩] },
        state := some "request-received", thread_id := some "t9" } =
      (.error .noSupportedPresFormats, []) :=
  C4_unsupported_format_no_save (fun f => f == "hlindy/proof@v2.0")
    (fun _ _ => .ok none)
    { pres_request := some { will_confirm := true,
                             attachments := [⟨"dif/presentation@v1.0", ""⟩] },
      state := some "request-received", thread_id := some "t9" }
    { will_confirm := true, attachments := [⟨"dif/presentation@v1.0", ""⟩] }
    ⟨"dif/presentation@v1.0", ""⟩
    rfl rfl (by decide)

/-- C7: calling `save_error_state` twice in succession with the same
(non-empty) target state persists exactly once — the first call writes one
save event, and the second call, whose target equals the now last-persisted
state, writes none. -/
theorem C7_error_state_idempotent (rec : V30PresExRecord) (s : String)
    (reason : Option String)
    (h1 : rec.last_state ≠ some s) (h2 : s.isEmpty = false) :
    (rec.save_error_state (some s) reason true).2 = [⟨some s, reason⟩] ∧
    ((rec.save_error_state (some s) reason true).1.save_error_state
        (some s) reason true).2 = [] := by
  simp only [V30PresExRecord.save_error_state, V30PresExRecord.save, pyOrElse,
    h2, Bool.false_eq_true, if_false, if_neg h1, if_true]
  trivial

/-- Witness for C7: abandoning a concrete `request-sent` record twice with
target `abandoned` writes exactly one save event. -/
theorem C7_error_state_idempotent_witness :
    ((V30PresExRecord.save_error_state { state := some "request-sent" }
        (some "abandoned") (some "boom") true).2 =
      [⟨some "abandoned", some "boom"⟩]) ∧
    ((V30PresExRecord.save_error_state { state := some "request-sent" }
        (some "abandoned") (some "boom") true).1.save_error_state
        (some "abandoned") (some "boom") true).2 = [] :=
  C7_error_state_idempotent { state := some "request-sent" } "abandoned"
    (some "boom") (by decide) (by decide)

open V30PresManager in
/-- C8: when the thread-id plus connection-id lookup raises not-found,
`receive_pres`'s record resolution falls back to the thread-id-only lookup
and succeeds whenever exactly one record matches the thread id alone. -/
theorem C8_connectionless_fallback (store : List V30PresExRecord)
    (thread_id : String) (conn : String) (r : V30PresExRecord)
    (h1 : retrieve_by_tag_filter store thread_id (some conn) =
      .error .storageNotFound)
    (h2 : store.filter (tagMatches thread_id none) = [r]) :
    receive_pres_lookup store thread_id (some conn) = .ok r := by
  simp only [receive_pres_lookup]
  rw [h1]
  simp only [retrieve_by_tag_filter]
  rw [h2]

/-- Witness for C8: a store holding one connection-less record under thread
`t1` resolves under a foreign connection filter via the fallback. -/
theorem C8_connectionless_fallback_witness :
    V30PresManager.receive_pres_lookup
      [{ thread_id := some "t1" }] "t1" (some "c9") =
      .ok { thread_id := some "t1" } :=
  C8_connectionless_fallback [{ thread_id := some "t1" }] "t1" "c9"
    { thread_id := some "t1" } rfl rfl

open V30PresManager in
/-- C9: when `verify_pres` completes successfully the record's state is
`done`, the ack list is non-empty iff the stored request declared
`will_confirm` and a responder is injected, and replacing the responder's
presence cannot turn success into an error — with no responder the ack list
is simply empty. -/
theorem C9_verify_done_ack
    (supported : String → Bool)
    (hVerify : String → V30PresExRecord → Except MgrError V30PresExRecord)
    (responderPresent : Bool) (rec : V30PresExRecord) (req : V30PresRequestMsg)
    (rec' : V30PresExRecord) (saves : List SaveEvent) (acks : List SentAck)
    (hreq : rec.pres_request = some req)
    (hok : verify_pres supported hVerify responderPresent rec =
      .ok (rec', saves, acks)) :
    rec'.state = some V30PresExRecord.STATE_DONE ∧
    (acks ≠ [] ↔ (req.will_confirm = true ∧ responderPresent = true)) ∧
    (∀ b : Bool, verify_pres supported hVerify b rec =
      .ok (rec', saves, if req.will_confirm then send_pres_ack b rec' else [])) := by
  cases hrv : runVerifyHandlers hVerify supported rec
      (req.attachments.map (·.format)) with
  | error e =>
    simp only [verify_pres, hreq, hrv] at hok
    exact Except.noConfusion hok
  | ok rec1 =>
    simp only [verify_pres, hreq, hrv, Except.ok.injEq, Prod.mk.injEq] at hok
    obtain ⟨hrec, hsaves, hacks⟩ := hok
    subst hrec
    subst hsaves
    subst hacks
    refine ⟨rfl, ?_, ?_⟩
    · cases hwc : req.will_confirm <;> cases hrp : responderPresent <;>
        simp [send_pres_ack, hwc, hrp]
    · intro b
      simp only [verify_pres, hreq, hrv]

/-- Witness for C9: a concrete record whose request declared `will_confirm`
verifies to state `done`; run with no responder the outcome is still
success, with an empty ack list. -/
theorem C9_verify_done_ack_witness :
    ({ pres_request := some { will_confirm := true, attachments := [⟨"f", ""⟩] },
       thread_id := some "t1", connection_id := some "c1",
       state := some "done" } : V30PresExRecord).state =
      some V30PresExRecord.STATE_DONE ∧
    V30PresManager.verify_pres (fun _ => false) (fun _ r => .ok r) false
      { pres_request := some { will_confirm := true, attachments := [⟨"f", ""⟩] },
        thread_id := some "t1", connection_id := some "c1" } =
      .ok ({ pres_request := some { will_confirm := true,
                                    attachments := [⟨"f", ""⟩] },
             thread_id := some "t1", connection_id := some "c1",
             state := some "done" },
           [⟨some "done", some "verify v3.0 presentation"⟩], []) :=
  ⟨(C9_verify_done_ack (fun _ => false) (fun _ r => .ok r) true
      { pres_request := some { will_confirm := true, attachments := [⟨"f", ""⟩] },
        thread_id := some "t1", connection_id := some "c1" }
      { will_confirm := true, attachments := [⟨"f", ""⟩] }
      { pres_request := some { will_confirm := true, attachments := [⟨"f", ""⟩] },
        thread_id := some "t1", connection_id := some "c1",
        state := some "done" }
      [⟨some "done", some "verify v3.0 presentation"⟩]
      [⟨some "t1", some "c1"⟩] rfl rfl).1,
   (C9_verify_done_ack (fun _ => false) (fun _ r => .ok r) true
      { pres_request := some { will_confirm := true, attachments := [⟨"f", ""⟩] },
        thread_id := some "t1", connection_id := some "c1" }
      { will_confirm := true, attachments := [⟨"f", ""⟩] }
      { pres_request := some { will_confirm := true, attachments := [⟨"f", ""⟩] },
        thread_id := some "t1", connection_id := some "c1",
        state := some "done" }
      [⟨some "done", some "verify v3.0 presentation"⟩]
      [⟨some "t1", some "c1"⟩] rfl rfl).2.2 false⟩

open V30PresManager in
/-- C10: when `receive_pres` succeeds on a resolved record, the record's
connection id is adopted from the supplied connection record exactly when it
was unset (Python-falsy), is kept unchanged otherwise, and `thread_id`,
`initiator` and `role` are unchanged. -/
theorem C10_receive_pres_identity_frame
    (supported : String → Bool)
    (hReceive : String → V30PresMsg → V30PresExRecord → Except MgrError (Option Bool))
    (store : List V30PresExRecord) (message : V30PresMsg) (c : ConnRecord)
    (rec rec' : V30PresExRecord) (saves : List SaveEvent)
    (hlook : receive_pres_lookup store message.thread_id (some c.connection_id) =
      .ok rec)
    (hok : receive_pres supported hReceive store message (some c) =
      .ok (rec', saves)) :
    (pyStrTruthy rec.connection_id = false →
      rec'.connection_id = some c.connection_id) ∧
    (pyStrTruthy rec.connection_id = true →
      rec'.connection_id = rec.connection_id) ∧
    rec'.thread_id = rec.thread_id ∧ rec'.initiator = rec.initiator ∧
    rec'.role = rec.role := by
  cases hrh : runReceiveHandlers hReceive supported message rec
      (message.attachments.map (·.format)) with
  | error e =>
    simp only [receive_pres, Option.map_some', hlook, hrh] at hok
    exact Except.noConfusion hok
  | ok u =>
    cases u
    cases hct : pyStrTruthy rec.connection_id
    · simp only [receive_pres, Option.map_some', hlook, hrh, hct,
        Bool.false_eq_true, if_false, Except.ok.injEq, Prod.mk.injEq] at hok
      obtain ⟨hrec, -⟩ := hok
      subst hrec
      exact ⟨fun _ => rfl, fun hc => absurd hc (by simp [hct]), rfl, rfl, rfl⟩
    · simp only [receive_pres, Option.map_some', hlook, hrh, hct, if_true,
        Except.ok.injEq, Prod.mk.injEq] at hok
      obtain ⟨hrec, -⟩ := hok
      subst hrec
      exact ⟨fun hc => absurd hc (by simp [hct]), fun _ => rfl, rfl, rfl, rfl⟩

/-- Witness for C10: a connection-less stored record (connection id unset)
receives a presentation over connection `c1` and adopts `c1`, keeping its
thread id. -/
theorem C10_receive_pres_identity_frame_witness :
    ({ thread_id := some "t1", connection_id := some "c1",
       state := some "presentation-received",
       pres := some { thread_id := "t1", attachments := [] } }
      : V30PresExRecord).connection_id = some "c1" ∧
    ({ thread_id := some "t1", connection_id := some "c1",
       state := some "presentation-received",
       pres := some { thread_id := "t1", attachments := [] } }
      : V30PresExRecord).thread_id = some "t1" :=
  ⟨(C10_receive_pres_identity_frame (fun _ => false) (fun _ _ _ => .ok none)
      [{ thread_id := some "t1" }] { thread_id := "t1", attachments := [] }
      ⟨"c1"⟩ { thread_id := some "t1" }
      { thread_id := some "t1", connection_id := some "c1",
        state := some "presentation-received",
        pres := some { thread_id := "t1", attachments := [] } }
      [⟨some "presentation-received", some "receive v3.0 presentation"⟩]
      rfl rfl).1 rfl,
   (C10_receive_pres_identity_frame (fun _ => false) (fun _ _ _ => .ok none)
      [{ thread_id := some "t1" }] { thread_id := "t1", attachments := [] }
      ⟨"c1"⟩ { thread_id := some "t1" }
      { thread_id := some "t1", connection_id := some "c1",
        state := some "presentation-received",
        pres := some { thread_id := "t1", attachments := [] } }
      [⟨some "presentation-received", some "receive v3.0 presentation"⟩]
      rfl rfl).2.2.1⟩

/-- C5 counterexample: a disclosed predicate whose only ge_proof assertion
matches the requested name but not the threshold value: no assertion matches
name, type and value together, yet the check raises the predicate-mismatch
error, not the predicate-not-presented error the claim prescribes. -/
theorem C5_counterexample :
    (check_proof_vs_proposal
      ⟨[], [("p1", ⟨"age", ">=", 18, []⟩)]⟩
      ⟨[], [], [("p1", ⟨0⟩)], [⟨"ABC:2:degree:1.0", "XYZ:3:CL:17:tag"⟩],
       [⟨[⟨"age", ">=", 17⟩]⟩]⟩).1 =
      .error (.predicateMismatch "age") ∧
    (∀ g ∈ [GeProofPred.mk "age" ">=" 17],
      ¬ (g.attr_name = canon "age" ∧ predicateGet g.p_type = predicateGet ">=" ∧
         g.value = (18 : Int))) ∧
    CheckError.predicateMismatch "age" ≠ CheckError.predicateNotPresented "age" :=
  ⟨rfl, by decide, by decide⟩

/-- C5 (amended): for a disclosed predicate referent the check scans the
ge_proof assertions at the disclosed sub-proof index for the first one whose
attribute name equals the canonicalized requested name: if none exists it
raises the predicate-not-presented error; if the first name match differs in
predicate type or threshold value it raises the predicate-mismatch error;
otherwise the item is accepted iff the restriction clauses, with their
`attr::`-prefixed keys stripped, pass the subset gate against the derived
criteria — and success implies an assertion matching name, type and value
exists. -/
theorem C5_predicate_check
    (proof_req : ProofReq) (proof : IndyProof) (reft : String)
    (spec : ReqPredSpec) (sub : SubProof) (pd : PredDisclosure)
    (h : proof_req.requested_predicates.lookup reft = some spec)
    (hsub : proof.proofs.get? pd.sub_proof_index = some sub) :
    (sub.ge_proofs.find? (fun g => g.attr_name = canon spec.name) = none →
      (checkPredicate proof_req proof reft pd).1 =
        .error (.predicateNotPresented spec.name)) ∧
    (∀ g, sub.ge_proofs.find? (fun g => g.attr_name = canon spec.name) = some g →
      ¬ (predicateGet g.p_type = predicateGet spec.p_type ∧
          g.value = spec.p_value) →
      (checkPredicate proof_req proof reft pd).1 =
        .error (.predicateMismatch spec.name)) ∧
    (∀ g ident criteria,
      sub.ge_proofs.find? (fun g => g.attr_name = canon spec.name) = some g →
      (predicateGet g.p_type = predicateGet spec.p_type ∧
        g.value = spec.p_value) →
      proof.identifiers.get? pd.sub_proof_index = some ident →
      deriveBaseCriteria ident.schema_id ident.cred_def_id = some criteria →
      ((checkPredicate proof_req proof reft pd).1 = .ok () ↔
        (spec.restrictions.map stripAttrKeys = [] ∨
         ∃ r ∈ spec.restrictions.map stripAttrKeys, ∀ kv ∈ r,
           criteria.lookup kv.1 = some kv.2))) ∧
    ((checkPredicate proof_req proof reft pd).1 = .ok () →
      ∃ g ∈ sub.ge_proofs, g.attr_name = canon spec.name ∧
        predicateGet g.p_type = predicateGet spec.p_type ∧
        g.value = spec.p_value) := by
  refine ⟨?_, ?_, ?_, ?_⟩
  · intro hfind
    simp only [checkPredicate, h, hsub, hfind]
  · intro g hfind hmis
    simp only [checkPredicate, h, hsub, hfind, if_pos hmis]
  · intro g ident criteria hfind hmatch hident hcrit
    simp only [checkPredicate, h, hsub, hfind, if_neg (not_not_intro hmatch),
      hident, hcrit]
    cases hb : restrictionMismatchB (spec.restrictions.map stripAttrKeys) criteria
    · simp only [hb, Bool.false_eq_true, if_false]
      exact iff_of_true trivial ((restrictionMismatchB_false_iff _ _).mp hb)
    · simp only [hb, if_true]
      constructor
      · intro hcontra
        exact Except.noConfusion hcontra
      · intro hpass
        have ht := (restrictionMismatchB_true_iff _ _).mp hb
        rcases hpass with hnil | ⟨r, hr, hsubr⟩
        · exact absurd hnil ht.1
        · exact absurd hsubr (ht.2 r hr)
  · intro hok
    cases hfind : sub.ge_proofs.find? (fun g => g.attr_name = canon spec.name) with
    | none =>
      simp only [checkPredicate, h, hsub, hfind] at hok
      exact Except.noConfusion hok
    | some g =>
      by_cases hmatch : (predicateGet g.p_type = predicateGet spec.p_type ∧
          g.value = spec.p_value)
      · refine ⟨g, List.mem_of_find?_eq_some hfind, ?_, hmatch⟩
        have := List.find?_some hfind
        exact of_decide_eq_true this
      · simp only [checkPredicate, h, hsub, hfind] at hok
        rw [if_pos hmatch] at hok
        exact Except.noConfusion hok

/-- Witness for C5: a concrete disclosed predicate whose ge_proof assertion
matches name, type and value, with one restriction clause containing an
`attr::` key: after stripping that key the clause is a subset of the derived
criteria and the item is accepted. -/
theorem C5_predicate_check_witness :
    (checkPredicate
      ⟨[], [("p1", ⟨"age", ">=", 18,
        [[("schema_name", "degree"), ("attr::age::value", "99")]]⟩)]⟩
      ⟨[], [], [("p1", ⟨0⟩)], [⟨"ABC:2:degree:1.0", "XYZ:3:CL:17:tag"⟩],
       [⟨[⟨"age", ">=", 18⟩]⟩]⟩
      "p1" ⟨0⟩).1 = .ok () :=
  ((C5_predicate_check
      ⟨[], [("p1", ⟨"age", ">=", 18,
        [[("schema_name", "degree"), ("attr::age::value", "99")]]⟩)]⟩
      ⟨[], [], [("p1", ⟨0⟩)], [⟨"ABC:2:degree:1.0", "XYZ:3:CL:17:tag"⟩],
       [⟨[⟨"age", ">=", 18⟩]⟩]⟩
      "p1"
      ⟨"age", ">=", 18, [[("schema_name", "degree"), ("attr::age::value", "99")]]⟩
      ⟨[⟨"age", ">=", 18⟩]⟩ ⟨0⟩ rfl rfl).2.2.1
    ⟨"age", ">=", 18⟩ ⟨"ABC:2:degree:1.0", "XYZ:3:CL:17:tag"⟩
    [("schema_id", "ABC:2:degree:1.0"), ("schema_issuer_did", "ABC"),
     ("schema_name", "degree"), ("schema_version", "1.0"),
     ("cred_def_id", "XYZ:3:CL:17:tag"), ("issuer_did", "XYZ")]
    rfl ⟨rfl, rfl⟩ rfl rfl).mpr (by decide)

/-- C6 counterexample: a stored request whose predicate restriction clause
contains an `attr::` key is not the same after the check — the predicate
loop pops the key from the stored clause in place. -/
theorem C6_counterexample :
    (check_proof_vs_proposal
      ⟨[], [("p1", ⟨"age", ">=", 18, [[("attr::age::value", "21")]]⟩)]⟩
      ⟨[], [], [("p1", ⟨0⟩)], [⟨"ABC:2:degree:1.0", "XYZ:3:CL:17:tag"⟩],
       [⟨[⟨"age", ">=", 18⟩]⟩]⟩).2 ≠
      ⟨[], [("p1", ⟨"age", ">=", 18, [[("attr::age::value", "21")]]⟩)]⟩ := by
  decide

/-- C6 (amended): the restriction-matching check is a pure deterministic
function of the deserialized structures, but it strips `attr::`-prefixed
keys from the stored request's predicate restriction clauses in place; the
stored request is unchanged by the check whenever no predicate restriction
clause contains such a key (attribute and attribute-group clauses are never
mutated). -/
theorem C6_check_pure (proof_req : ProofReq) (proof : IndyProof)
    (h : noAttrPredKeys proof_req = true) :
    (check_proof_vs_proposal proof_req proof).2 = proof_req := by
  unfold check_proof_vs_proposal
  split
  · rfl
  · split
    · rfl
    · exact runPredLoop_snd_unchanged proof proof_req proof.predicates h

/-- Witness for C6: a concrete request with attribute and predicate
restriction clauses free of `attr::` keys is returned unchanged by the
check. -/
theorem C6_check_pure_witness :
    (check_proof_vs_proposal
      ⟨[("a1", ⟨"score", [[("schema_name", "degree")]]⟩)],
       [("p1", ⟨"age", ">=", 18, [[("schema_name", "degree")]]⟩)]⟩
      ⟨[("a1", ⟨"780", 0⟩)], [], [("p1", ⟨0⟩)],
       [⟨"ABC:2:degree:1.0", "XYZ:3:CL:17:tag"⟩], [⟨[⟨"age", ">=", 18⟩]⟩]⟩).2 =
      ⟨[("a1", ⟨"score", [[("schema_name", "degree")]]⟩)],
       [("p1", ⟨"age", ">=", 18, [[("schema_name", "degree")]]⟩)]⟩ :=
  C6_check_pure
    ⟨[("a1", ⟨"score", [[("schema_name", "degree")]]⟩)],
     [("p1", ⟨"age", ">=", 18, [[("schema_name", "degree")]]⟩)]⟩
    ⟨[("a1", ⟨"780", 0⟩)], [], [("p1", ⟨0⟩)],
     [⟨"ABC:2:degree:1.0", "XYZ:3:CL:17:tag"⟩], [⟨[⟨"age", ">=", 18⟩]⟩]⟩
    (by decide)

end AriesPresentProof
